import Mathlib

/-!
Verification of the subctl control-plane orchestration core: the broker
deployment pipeline (`pkg/deploy/broker.go`) and the diagnostic gather
command. External collaborators (the `Ensure` appliers, the globalnet
sizing/CIDR helpers, the per-context runner) are modelled as opaque
function parameters, matching the collaborator contracts of the design:
every theorem quantifies over all of their behaviours.

Errors are modelled as `Option String` (`none` = Go `nil`, `some msg` =
a non-nil error with message `msg`).
-/

namespace Subctl

/- Constants from `internal/component`.
Modelled from the spec: the known deployable component names are
`service-discovery` and `connectivity`; `globalnet` is the implicitly
added component. -/
namespace component

def ServiceDiscovery : String := "service-discovery"

def Connectivity : String := "connectivity"

def Globalnet : String := "globalnet"

end component

/-- `operatorv1alpha1.BrokerSpec`, restricted to the fields the core
reads: the requested component list, the globalnet enable flag, the
global CIDR range and the per-cluster default size. -/
structure BrokerSpec where
  Components : List String
  GlobalnetEnabled : Bool
  GlobalnetCIDRRange : String
  DefaultGlobalnetClusterSize : Nat
deriving Repr, DecidableEq

/-- `deploy.BrokerOptions` from `pkg/deploy/broker.go`. -/
structure BrokerOptions where
  OperatorDebug : Bool
  Repository : String
  ImageVersion : String
  BrokerNamespace : String
  BrokerSpec : BrokerSpec
deriving Repr, DecidableEq

/-- `deploy.ValidComponents` from `pkg/deploy/broker.go` line 47. -/
def ValidComponents : List String := [component.ServiceDiscovery, component.Connectivity]

/-- The deployment/configuration calls the broker pipeline makes against
the target cluster, recorded as trace events.  `createConfigMap` records
the `GlobalnetEnabled` flag the call receives. -/
inductive Step where
  | rbac : Step
  | operatorDeploy : Step
  | brokerObject : Step
  | validateGlobalnet : Step
  | createConfigMap (enabled : Bool) : Step
deriving Repr, DecidableEq

/-- The external collaborators called by `Broker`/`deploy`:
`broker.Ensure`, `operator.Ensure`, `brokercr.Ensure`,
`globalnet.ValidateExistingGlobalNetworks`, `globalnet.CreateConfigMap`,
`globalnet.GetValidClusterSize`, `globalnet.IsValidCIDR` and
`image.NewRepositoryInfo(...).GetOperatorImage`.  Each returns the error
(or value-and-error) of the underlying call; theorems quantify over all
behaviours. -/
structure Collaborators where
  brokerEnsure : List String → String → Option String
  getOperatorImage : String → String → String
  operatorEnsure : String → Bool → Option String
  brokercrEnsure : String → BrokerSpec → Option String
  validateExistingGlobalNetworks : String → Option String
  createConfigMap : Bool → String → Nat → String → Option String
  getValidClusterSize : String → Nat → Nat × Option String
  isValidCIDR : String → Option String

/-- `status.Error(err, msg)` from the admiral reporter: returns `nil`
when `err` is `nil`, otherwise the error wrapped with the message
context. -/
def statusError (err : Option String) (msg : String) : Option String :=
  err.map (fun e => msg ++ ": " ++ e)

/-- `isValidComponents` from `pkg/deploy/broker.go` lines 111–125.  The
Go set is modelled as a duplicate-free list; membership in
`ValidComponents` models `validComponentSet.Has`. -/
def isValidComponents (componentSet : List String) : Option String :=
  if componentSet.length < 1 then
    some "at least one component must be provided for deployment"
  else
    match componentSet.find? (fun c => !ValidComponents.contains c) with
    | some c => some ("unknown component: " ++ c)
    | none => none

/-- `checkGlobalnetConfig` from `pkg/deploy/broker.go` lines 128–142.
The Go function mutates `options` through a pointer; here the updated
options are returned alongside the error.  Note the multi-assignment
`options.BrokerSpec.DefaultGlobalnetClusterSize, err = ...` stores the
returned size even when an error is also returned. -/
def checkGlobalnetConfig (c : Collaborators) (options : BrokerOptions) :
    BrokerOptions × Option String :=
  if !options.BrokerSpec.GlobalnetEnabled then
    (options, none)
  else
    let sizeErr := c.getValidClusterSize options.BrokerSpec.GlobalnetCIDRRange
      options.BrokerSpec.DefaultGlobalnetClusterSize
    let options' := { options with
      BrokerSpec := { options.BrokerSpec with DefaultGlobalnetClusterSize := sizeErr.1 } }
    match sizeErr.2 with
    | some e => (options', some e)
    | none => (options', c.isValidCIDR options'.BrokerSpec.GlobalnetCIDRRange)

/-- `deploy` from `pkg/deploy/broker.go` lines 85–109: RBAC, then
operator, then broker object, fail-fast.  Returns the trace of attempted
steps together with the (context-wrapped) error. -/
def deploy (c : Collaborators) (options : BrokerOptions) : List Step × Option String :=
  match c.brokerEnsure options.BrokerSpec.Components options.BrokerNamespace with
  | some e => ([Step.rbac], statusError (some e) "error setting up broker RBAC")
  | none =>
    match c.operatorEnsure (c.getOperatorImage options.Repository options.ImageVersion)
        options.OperatorDebug with
    | some e => ([Step.rbac, Step.operatorDeploy],
        statusError (some e) "error deploying Submariner operator")
    | none =>
      ([Step.rbac, Step.operatorDeploy, Step.brokerObject],
        statusError (c.brokercrEnsure options.BrokerNamespace options.BrokerSpec)
          "Broker deployment failed")

/-- The outcome of one `Broker` invocation: the trace of
deployment/configuration calls, the returned error, and the final state
of the caller's `options` (mutated through the pointer by
`checkGlobalnetConfig`). -/
structure BrokerRun where
  trace : List Step
  err : Option String
  options : BrokerOptions
deriving Repr, DecidableEq

/-- `Broker` from `pkg/deploy/broker.go` lines 49–83.  `sets.New` on the
component list is modelled by `List.dedup`; the `componentSet.Insert`
of the globalnet component mirrors the source, whose inserted set is not
used afterwards. -/
def Broker (c : Collaborators) (options : BrokerOptions) : BrokerRun :=
  let componentSet := options.BrokerSpec.Components.dedup
  match isValidComponents componentSet with
  | some e => ⟨[], statusError (some e) "invalid components parameter", options⟩
  | none =>
    let _componentSet :=
      if options.BrokerSpec.GlobalnetEnabled then
        componentSet.insert component.Globalnet
      else componentSet
    match checkGlobalnetConfig c options with
    | (options', some e) =>
        ⟨[], statusError (some e) "invalid GlobalCIDR configuration", options'⟩
    | (options', none) =>
      match deploy c options' with
      | (trace, some e) => ⟨trace, some e, options'⟩
      | (trace, none) =>
        let en := options'.BrokerSpec.GlobalnetEnabled
        let vErr := if en then c.validateExistingGlobalNetworks options'.BrokerNamespace else none
        let trace1 := trace ++ (if en then [Step.validateGlobalnet] else [])
        match vErr with
        | some e =>
            ⟨trace1, statusError (some e) "error validating existing globalCIDR configmap", options'⟩
        | none =>
          let cErr := c.createConfigMap en options'.BrokerSpec.GlobalnetCIDRRange
            options'.BrokerSpec.DefaultGlobalnetClusterSize options'.BrokerNamespace
          ⟨trace1 ++ [Step.createConfigMap en],
            statusError cErr "error creating globalCIDR configmap on Broker", options'⟩

/-- `gather.Options` from `internal/gather`, its fields as read and
written by the gather command in the shown source. -/
structure GatherOptions where
  Types : List String
  Modules : List String
  Directory : String
  IncludeSensitiveData : Bool
deriving Repr, DecidableEq

/-- Go `%q` formatting of a plain string: the value wrapped in double
quotes. -/
def quoted (s : String) : String := "\"" ++ s ++ "\""

/-- A UTC wall-clock instant, the input to the Go layout
`20060102150405` used for the default gather directory. -/
structure UTCTime where
  year : Nat
  month : Nat
  day : Nat
  hour : Nat
  minute : Nat
  second : Nat
deriving Repr, DecidableEq

/-- Go zero-padding of a component to two digits. -/
def pad2 (n : Nat) : String :=
  if n < 10 then "0" ++ toString n else toString n

/-- Go zero-padding of the year to four digits. -/
def pad4 (n : Nat) : String :=
  if n < 10 then "000" ++ toString n
  else if n < 100 then "00" ++ toString n
  else if n < 1000 then "0" ++ toString n
  else toString n

/-- `time.Format("20060102150405")`: the instant rendered as
`YYYYMMDDHHMMSS`. -/
def formatTimestamp (t : UTCTime) : String :=
  pad4 t.year ++ pad2 t.month ++ pad2 t.day ++ pad2 t.hour ++ pad2 t.minute ++ pad2 t.second

/-- `checkGatherArguments` from the gather command source: every
requested type must be in `AllTypes` and every requested module in
`AllModules` (the fixed known sets, supplied here as parameters since
they live in `internal/gather`); the first offending value is reported
with Go `%q` quoting. -/
def checkGatherArguments (allTypes allModules : List String) (options : GatherOptions) :
    Option String :=
  match options.Types.find? (fun t => !allTypes.contains t) with
  | some t => some (quoted t ++ " is not a supported type")
  | none =>
    match options.Modules.find? (fun m => !allModules.contains m) with
    | some m => some (quoted m ++ " is not a supported module")
    | none => none

/-- Modelled from the spec: `restconfig.Producer.RunOnAllContexts`
(repository code outside the shown files) invokes the per-cluster
collection function once per resolved cluster context, isolating each
cluster's outcome; the run fails if any cluster failed.  Returns the
list of contexts that were contacted together with the aggregate
error. -/
def runOnAllContexts (contexts : List String) (f : String → Option String) :
    List String × Option String :=
  let failures := contexts.filter (fun ctx => (f ctx).isSome)
  (contexts, if failures.isEmpty then none else some ("failures gathering data: " ++ String.intercalate ", " failures))

/-- The outcome of one gather command invocation: the final options
(after directory defaulting), the cluster contexts contacted, and the
command's error. -/
structure GatherRun where
  options : GatherOptions
  contacted : List String
  err : Option String
deriving Repr, DecidableEq

/-- The `Run` closure of `gatherCmd`: default the output directory from
the current UTC time when unset, validate the arguments
(`exit.OnErrorWithMessage` aborts with "Invalid argument" before any
cluster call), then run the collection on every context. -/
def gatherRun (allTypes allModules : List String) (now : UTCTime) (contexts : List String)
    (gatherData : String → GatherOptions → Option String) (options : GatherOptions) :
    GatherRun :=
  let options' :=
    if options.Directory = "" then
      { options with Directory := "submariner-" ++ formatTimestamp now }
    else options
  match checkGatherArguments allTypes allModules options' with
  | some e => ⟨options', [], some ("Invalid argument: " ++ e)⟩
  | none =>
    let res := runOnAllContexts contexts (fun ctx => gatherData ctx options')
    ⟨options', res.1, res.2⟩

/-! ### Concrete fixtures used to instantiate the universally quantified
collaborator behaviours in witnesses and counterexamples. -/

/-- Collaborators for which every external call succeeds. -/
def cAllOk : Collaborators :=
  ⟨fun _ _ => none, fun r v => r ++ "/submariner-operator:" ++ v, fun _ _ => none,
   fun _ _ => none, fun _ => none, fun _ _ _ _ => none, fun _ n => (n, none), fun _ => none⟩

/-- Collaborators for which the operator deployment fails and everything
else succeeds. -/
def cOperatorFails : Collaborators :=
  ⟨fun _ _ => none, fun r v => r ++ "/submariner-operator:" ++ v, fun _ _ => some "boom",
   fun _ _ => none, fun _ => none, fun _ _ _ _ => none, fun _ n => (n, none), fun _ => none⟩

/-- Collaborators for which the existing-globalnet validation reports a
conflict and everything else succeeds. -/
def cConflict : Collaborators :=
  ⟨fun _ _ => none, fun r v => r ++ "/submariner-operator:" ++ v, fun _ _ => none,
   fun _ _ => none, fun _ => some "conflict", fun _ _ _ _ => none, fun _ n => (n, none),
   fun _ => none⟩

/-- Collaborators for which every external call fails, the globalnet
sizing and CIDR checks included. -/
def cAllFail : Collaborators :=
  ⟨fun _ _ => some "rbac fail", fun r v => r ++ "/submariner-operator:" ++ v,
   fun _ _ => some "op fail", fun _ _ => some "cr fail", fun _ => some "validate fail",
   fun _ _ _ _ => some "create fail", fun _ _ => (0, some "size fail"),
   fun _ => some "cidr fail"⟩

/-- Valid options with globalnet disabled. -/
def optsValidDisabled : BrokerOptions :=
  ⟨false, "quay.io/submariner", "0.14.0", "submariner-k8s-broker",
   ⟨[component.Connectivity], false, "", 0⟩⟩

/-- Valid options with globalnet enabled. -/
def optsValidEnabled : BrokerOptions :=
  ⟨false, "quay.io/submariner", "0.14.0", "submariner-k8s-broker",
   ⟨[component.Connectivity, component.ServiceDiscovery], true, "242.0.0.0/8", 65536⟩⟩

/-- Options naming an unknown component. -/
def optsUnknownComponent : BrokerOptions :=
  ⟨false, "quay.io/submariner", "0.14.0", "submariner-k8s-broker",
   ⟨["foo"], false, "", 0⟩⟩

/-- Options with a duplicated (known) component and malformed globalnet
fields, globalnet disabled. -/
def optsDupMalformed : BrokerOptions :=
  ⟨true, "quay.io/submariner", "0.14.0", "submariner-k8s-broker",
   ⟨[component.Connectivity, component.Connectivity], false, "not-a-cidr", 7⟩⟩

/-! ### Helper lemmas -/

/-- The three-step deploy helper only ever attempts RBAC, operator and
broker-object, in that order, cut at the first failure. -/
lemma deploy_trace_cases (c : Collaborators) (o : BrokerOptions) :
    (deploy c o).1 = [Step.rbac] ∨
    (deploy c o).1 = [Step.rbac, Step.operatorDeploy] ∨
    (deploy c o).1 = [Step.rbac, Step.operatorDeploy, Step.brokerObject] := by
  unfold deploy
  rcases h1 : c.brokerEnsure o.BrokerSpec.Components o.BrokerNamespace with _ | e1
  · rcases h2 : c.operatorEnsure (c.getOperatorImage o.Repository o.ImageVersion)
        o.OperatorDebug with _ | e2
    · simp
    · simp
  · simp

/-- No deploy trace mentions a globalnet configuration call. -/
lemma deploy_no_globalnet_steps (c : Collaborators) (o : BrokerOptions) (s : Step) :
    s ∈ (deploy c o).1 → s = Step.rbac ∨ s = Step.operatorDeploy ∨ s = Step.brokerObject := by
  intro hs
  rcases deploy_trace_cases c o with h | h | h <;> rw [h] at hs <;> simp at hs <;> tauto

/-- `checkGlobalnetConfig` is the identity (with no error) whenever
globalnet is disabled. -/
lemma checkGlobalnetConfig_of_disabled (c : Collaborators) (options : BrokerOptions)
    (h : options.BrokerSpec.GlobalnetEnabled = false) :
    checkGlobalnetConfig c options = (options, none) := by
  unfold checkGlobalnetConfig
  rw [h]
  simp

/-- `checkGlobalnetConfig` never changes the globalnet enable flag. -/
lemma checkGlobalnetConfig_preserves_enabled (c : Collaborators) (options : BrokerOptions) :
    (checkGlobalnetConfig c options).1.BrokerSpec.GlobalnetEnabled =
      options.BrokerSpec.GlobalnetEnabled := by
  unfold checkGlobalnetConfig
  rcases h : options.BrokerSpec.GlobalnetEnabled with _ | _
  · simp [h]
  · simp only [h, Bool.not_true, Bool.false_eq_true, if_false]
    rcases (c.getValidClusterSize options.BrokerSpec.GlobalnetCIDRRange
        options.BrokerSpec.DefaultGlobalnetClusterSize).2 with _ | e <;> simp

@[simp]
lemma statusError_some (e msg : String) :
    statusError (some e) msg = some (msg ++ ": " ++ e) := rfl

@[simp]
lemma statusError_none (msg : String) : statusError none msg = none := rfl

/-- A deploy run that returns no error attempted all three of its
steps. -/
lemma deploy_ok_trace (c : Collaborators) (o : BrokerOptions) (h : (deploy c o).2 = none) :
    (deploy c o).1 = [Step.rbac, Step.operatorDeploy, Step.brokerObject] := by
  unfold deploy at h ⊢
  rcases h1 : c.brokerEnsure o.BrokerSpec.Components o.BrokerNamespace with _ | e1
  · rcases h2 : c.operatorEnsure (c.getOperatorImage o.Repository o.ImageVersion)
        o.OperatorDebug with _ | e2
    · simp [h1, h2]
    · simp [h1, h2] at h
  · simp [h1] at h

/-- The full pipeline only ever produces one of seven traces, each an
order-respecting cut of the pipeline RBAC → operator → broker object →
globalnet configuration. -/
lemma Broker_trace_cases (c : Collaborators) (options : BrokerOptions) :
    (Broker c options).trace ∈ [([] : List Step), [Step.rbac],
      [Step.rbac, Step.operatorDeploy],
      [Step.rbac, Step.operatorDeploy, Step.brokerObject],
      [Step.rbac, Step.operatorDeploy, Step.brokerObject, Step.validateGlobalnet],
      [Step.rbac, Step.operatorDeploy, Step.brokerObject, Step.validateGlobalnet,
        Step.createConfigMap true],
      [Step.rbac, Step.operatorDeploy, Step.brokerObject, Step.createConfigMap false]] := by
  rcases h1 : isValidComponents options.BrokerSpec.Components.dedup with _ | e1
  · rcases h2 : checkGlobalnetConfig c options with ⟨opts', _ | e2⟩
    · rcases h3 : deploy c opts' with ⟨dtrace, _ | e3⟩
      · have hdt : dtrace = [Step.rbac, Step.operatorDeploy, Step.brokerObject] := by
          have := deploy_ok_trace c opts' (by rw [h3])
          rwa [h3] at this
        rcases hen : opts'.BrokerSpec.GlobalnetEnabled with _ | _
        · simp [Broker, h1, h2, h3, hen, hdt]
        · rcases h4 : c.validateExistingGlobalNetworks opts'.BrokerNamespace with _ | e4
          · simp [Broker, h1, h2, h3, hen, h4, hdt]
          · simp [Broker, h1, h2, h3, hen, h4, hdt]
      · have := deploy_trace_cases c opts'
        rw [h3] at this
        simp at this
        rcases this with h | h | h <;> simp [Broker, h1, h2, h3, h]
    · simp [Broker, h1, h2]
  · simp [Broker, h1]

lemma not_length_lt_one_of_ne_nil {S : List String} (hne : S ≠ []) : ¬ S.length < 1 :=
  fun h => hne (List.eq_nil_of_length_eq_zero (Nat.lt_one_iff.mp h))

/-- The component validator accepts exactly the non-empty subsets of the
known component set. -/
lemma isValidComponents_eq_none_iff (S : List String) :
    isValidComponents S = none ↔ S ≠ [] ∧ ∀ x ∈ S, x ∈ ValidComponents := by
  constructor
  · intro h
    unfold isValidComponents at h
    by_cases hS : S.length < 1
    · simp [hS] at h
    · have hne : S ≠ [] := by
        intro hnil
        rw [hnil] at hS
        simp at hS
      refine ⟨hne, fun x hx => ?_⟩
      rcases hf : S.find? (fun c => !ValidComponents.contains c) with _ | c
      · have := List.find?_eq_none.mp hf x hx
        simpa using this
      · rw [if_neg hS, hf] at h
        simp at h
  · rintro ⟨hne, hall⟩
    unfold isValidComponents
    rw [if_neg (not_length_lt_one_of_ne_nil hne)]
    rcases hf : S.find? (fun c => !ValidComponents.contains c) with _ | c
    · simp
    · have hc := List.find?_some hf
      have hmem := List.mem_of_find?_eq_some hf
      simp at hc
      exact absurd (hall c hmem) hc

/-! ### Claim theorems -/

/-- C2: the component validator succeeds iff the requested set is
non-empty and contained in the known component set
{service-discovery, connectivity}; an unknown member is named in the
error, and an empty set yields the at-least-one-component error.  (The
validator is a pure function, so it has no side effects.) -/
theorem isValidComponents_characterization (S : List String) :
    (isValidComponents S = none ↔ S ≠ [] ∧ ∀ x ∈ S, x ∈ ValidComponents) ∧
    (S = [] →
      isValidComponents S = some "at least one component must be provided for deployment") ∧
    (∀ e, isValidComponents S = some e → S ≠ [] →
      ∃ x ∈ S, x ∉ ValidComponents ∧ e = "unknown component: " ++ x) := by
  refine ⟨isValidComponents_eq_none_iff S, ?_, ?_⟩
  · intro hnil
    unfold isValidComponents
    rw [if_pos (by rw [hnil]; simp)]
  · intro e he hne
    unfold isValidComponents at he
    rw [if_neg (not_length_lt_one_of_ne_nil hne)] at he
    rcases hf : S.find? (fun c => !ValidComponents.contains c) with _ | c
    · rw [hf] at he
      simp at he
    · rw [hf] at he
      refine ⟨c, List.mem_of_find?_eq_some hf, ?_, ?_⟩
      · have := List.find?_some hf
        simpa using this
      · exact (Option.some.inj he).symm

/-- Witness for C2 at concrete inputs: the empty set is rejected with
the at-least-one-component message, and a set containing only known
components is accepted. -/
theorem isValidComponents_characterization_witness :
    isValidComponents [] = some "at least one component must be provided for deployment" ∧
    isValidComponents ["connectivity", "service-discovery"] = none :=
  ⟨(isValidComponents_characterization []).2.1 rfl,
   (isValidComponents_characterization ["connectivity", "service-discovery"]).1.mpr
     ⟨by decide, by decide⟩⟩

/-- C4: with globalnet disabled, the globalnet configuration validator
returns success and leaves the options untouched, for every behaviour of
the sizing and CIDR collaborators and every value of the CIDR-range and
cluster-size fields; in particular neither collaborator's result is
consulted. -/
theorem checkGlobalnetConfig_disabled_noop (c : Collaborators) (options : BrokerOptions)
    (h : options.BrokerSpec.GlobalnetEnabled = false) :
    checkGlobalnetConfig c options = (options, none) :=
  checkGlobalnetConfig_of_disabled c options h

/-- Witness for C4: even with collaborators that always fail and
malformed CIDR/size fields, the disabled validator succeeds without
change. -/
theorem checkGlobalnetConfig_disabled_noop_witness :
    checkGlobalnetConfig cAllFail optsDupMalformed = (optsDupMalformed, none) :=
  checkGlobalnetConfig_disabled_noop cAllFail optsDupMalformed rfl

/-- C1: the broker pipeline attempts its steps in strict order (RBAC,
operator, broker object, globalnet configuration) — every trace is an
order-respecting cut of that pipeline — and it is fail-fast: whichever
step fails first ends the trace there and its error is returned wrapped
with that step's context; in particular an operator-deployment failure
means the broker-object step and both globalnet-configuration calls
never occur. -/
theorem Broker_pipeline_order_fail_fast (c : Collaborators) (options : BrokerOptions) :
    ((Broker c options).trace ∈ [([] : List Step), [Step.rbac],
      [Step.rbac, Step.operatorDeploy],
      [Step.rbac, Step.operatorDeploy, Step.brokerObject],
      [Step.rbac, Step.operatorDeploy, Step.brokerObject, Step.validateGlobalnet],
      [Step.rbac, Step.operatorDeploy, Step.brokerObject, Step.validateGlobalnet,
        Step.createConfigMap true],
      [Step.rbac, Step.operatorDeploy, Step.brokerObject, Step.createConfigMap false]]) ∧
    (∀ opts', checkGlobalnetConfig c options = (opts', none) →
      isValidComponents options.BrokerSpec.Components.dedup = none →
      (∀ e, c.brokerEnsure opts'.BrokerSpec.Components opts'.BrokerNamespace = some e →
        (Broker c options).trace = [Step.rbac] ∧
        (Broker c options).err = some ("error setting up broker RBAC: " ++ e)) ∧
      (c.brokerEnsure opts'.BrokerSpec.Components opts'.BrokerNamespace = none →
        ∀ e, c.operatorEnsure (c.getOperatorImage opts'.Repository opts'.ImageVersion)
            opts'.OperatorDebug = some e →
        (Broker c options).trace = [Step.rbac, Step.operatorDeploy] ∧
        (Broker c options).err = some ("error deploying Submariner operator: " ++ e) ∧
        Step.brokerObject ∉ (Broker c options).trace ∧
        Step.validateGlobalnet ∉ (Broker c options).trace ∧
        (∀ b, Step.createConfigMap b ∉ (Broker c options).trace)) ∧
      (c.brokerEnsure opts'.BrokerSpec.Components opts'.BrokerNamespace = none →
        c.operatorEnsure (c.getOperatorImage opts'.Repository opts'.ImageVersion)
          opts'.OperatorDebug = none →
        ∀ e, c.brokercrEnsure opts'.BrokerNamespace opts'.BrokerSpec = some e →
        (Broker c options).trace = [Step.rbac, Step.operatorDeploy, Step.brokerObject] ∧
        (Broker c options).err = some ("Broker deployment failed: " ++ e)) ∧
      ((deploy c opts').2 = none → opts'.BrokerSpec.GlobalnetEnabled = true →
        ∀ e, c.validateExistingGlobalNetworks opts'.BrokerNamespace = some e →
        (Broker c options).trace = [Step.rbac, Step.operatorDeploy, Step.brokerObject,
          Step.validateGlobalnet] ∧
        (Broker c options).err =
          some ("error validating existing globalCIDR configmap: " ++ e)) ∧
      ((deploy c opts').2 = none → opts'.BrokerSpec.GlobalnetEnabled = true →
        c.validateExistingGlobalNetworks opts'.BrokerNamespace = none →
        ∀ e, c.createConfigMap true opts'.BrokerSpec.GlobalnetCIDRRange
          opts'.BrokerSpec.DefaultGlobalnetClusterSize opts'.BrokerNamespace = some e →
        (Broker c options).trace = [Step.rbac, Step.operatorDeploy, Step.brokerObject,
          Step.validateGlobalnet, Step.createConfigMap true] ∧
        (Broker c options).err =
          some ("error creating globalCIDR configmap on Broker: " ++ e)) ∧
      ((deploy c opts').2 = none → opts'.BrokerSpec.GlobalnetEnabled = false →
        ∀ e, c.createConfigMap false opts'.BrokerSpec.GlobalnetCIDRRange
          opts'.BrokerSpec.DefaultGlobalnetClusterSize opts'.BrokerNamespace = some e →
        (Broker c options).trace = [Step.rbac, Step.operatorDeploy, Step.brokerObject,
          Step.createConfigMap false] ∧
        (Broker c options).err =
          some ("error creating globalCIDR configmap on Broker: " ++ e))) := by
  refine ⟨Broker_trace_cases c options, ?_⟩
  intro opts' hcfg hcomp
  refine ⟨?_, ?_, ?_, ?_, ?_, ?_⟩
  · intro e hb
    have hd : deploy c opts' = ([Step.rbac], some ("error setting up broker RBAC: " ++ e)) := by
      simp [deploy, hb]
    simp [Broker, hcomp, hcfg, hd]
  · intro hb e ho
    have hd : deploy c opts' =
        ([Step.rbac, Step.operatorDeploy],
          some ("error deploying Submariner operator: " ++ e)) := by
      simp [deploy, hb, ho]
    simp [Broker, hcomp, hcfg, hd]
  · intro hb ho e hcr
    have hd : deploy c opts' =
        ([Step.rbac, Step.operatorDeploy, Step.brokerObject],
          some ("Broker deployment failed: " ++ e)) := by
      simp [deploy, hb, ho, hcr]
    simp [Broker, hcomp, hcfg, hd]
  · intro hdep hen e hval
    have hd : deploy c opts' = ([Step.rbac, Step.operatorDeploy, Step.brokerObject], none) := by
      rw [← deploy_ok_trace c opts' hdep, ← hdep]
    simp [Broker, hcomp, hcfg, hd, hen, hval]
  · intro hdep hen hval e hcr
    have hd : deploy c opts' = ([Step.rbac, Step.operatorDeploy, Step.brokerObject], none) := by
      rw [← deploy_ok_trace c opts' hdep, ← hdep]
    simp [Broker, hcomp, hcfg, hd, hen, hval, hcr]
  · intro hdep hen e hcr
    have hd : deploy c opts' = ([Step.rbac, Step.operatorDeploy, Step.brokerObject], none) := by
      rw [← deploy_ok_trace c opts' hdep, ← hdep]
    simp [Broker, hcomp, hcfg, hd, hen, hcr]

/-- Witness for C1: a run whose operator deployment fails stops after
two steps with the operator context attached, and never reaches the
broker-object or configmap-creation calls. -/
theorem Broker_pipeline_order_fail_fast_witness :
    (Broker cOperatorFails optsValidDisabled).trace = [Step.rbac, Step.operatorDeploy] ∧
    (Broker cOperatorFails optsValidDisabled).err =
      some "error deploying Submariner operator: boom" ∧
    Step.brokerObject ∉ (Broker cOperatorFails optsValidDisabled).trace ∧
    Step.createConfigMap false ∉ (Broker cOperatorFails optsValidDisabled).trace := by
  have T := ((Broker_pipeline_order_fail_fast cOperatorFails optsValidDisabled).2
    optsValidDisabled rfl (by decide)).2.1 rfl "boom" rfl
  exact ⟨T.1, T.2.1, T.2.2.1, T.2.2.2.2 false⟩

/-- C5: both validators run before any deployment step: if the component
validator rejects, `Broker` returns its error (with the
invalid-components context) with an empty trace and untouched options;
if it accepts but the globalnet validator rejects, `Broker` returns that
error (with the invalid-GlobalCIDR context) with an empty trace — so no
RBAC, operator, broker-object or globalnet call executes. -/
theorem Broker_validators_before_any_step (c : Collaborators) (options : BrokerOptions) :
    (∀ e, isValidComponents options.BrokerSpec.Components.dedup = some e →
      Broker c options = ⟨[], some ("invalid components parameter: " ++ e), options⟩) ∧
    (isValidComponents options.BrokerSpec.Components.dedup = none →
      ∀ opts' e, checkGlobalnetConfig c options = (opts', some e) →
      Broker c options = ⟨[], some ("invalid GlobalCIDR configuration: " ++ e), opts'⟩) := by
  constructor
  · intro e he
    simp [Broker, he]
  · intro hc opts' e hcfg
    simp [Broker, hc, hcfg]

/-- Witness for C5: an unknown component aborts the run with an empty
trace, before any deployment step. -/
theorem Broker_validators_before_any_step_witness :
    Broker cAllOk optsUnknownComponent =
      ⟨[], some "invalid components parameter: unknown component: foo",
        optsUnknownComponent⟩ := by
  have T := (Broker_validators_before_any_step cAllOk optsUnknownComponent).1
    "unknown component: foo" (by decide)
  exact T

/-- C7: with globalnet enabled, when the existing-globalnet validation
reports a conflict after a successful deploy, `Broker` fails with that
error (wrapped with the validation context) and the configmap-creation
call never runs. -/
theorem Broker_conflict_aborts_creation (c : Collaborators) (options opts' : BrokerOptions)
    (e : String)
    (hcomp : isValidComponents options.BrokerSpec.Components.dedup = none)
    (hcfg : checkGlobalnetConfig c options = (opts', none))
    (hdep : (deploy c opts').2 = none)
    (hen : opts'.BrokerSpec.GlobalnetEnabled = true)
    (hval : c.validateExistingGlobalNetworks opts'.BrokerNamespace = some e) :
    (Broker c options).err = some ("error validating existing globalCIDR configmap: " ++ e) ∧
    ∀ b, Step.createConfigMap b ∉ (Broker c options).trace := by
  have hdt := deploy_ok_trace c opts' hdep
  have hd : deploy c opts' = ([Step.rbac, Step.operatorDeploy, Step.brokerObject], none) := by
    rw [← hdt, ← hdep]
  simp [Broker, hcomp, hcfg, hd, hen, hval]

/-- Witness for C7: a conflicting pre-existing globalnet configuration
fails the run and the creation call is absent from the trace. -/
theorem Broker_conflict_aborts_creation_witness :
    (Broker cConflict optsValidEnabled).err =
      some "error validating existing globalCIDR configmap: conflict" ∧
    Step.createConfigMap true ∉ (Broker cConflict optsValidEnabled).trace := by
  have T := Broker_conflict_aborts_creation cConflict optsValidEnabled optsValidEnabled
    "conflict" (by decide) (by decide) (by decide) rfl rfl
  exact ⟨T.1, T.2 true⟩

/-- C3 counterexample: with globalnet disabled and an otherwise
successful run, the globalnet configuration-record creation call IS
performed (it sits outside the `GlobalnetEnabled` guard in the source),
refuting the claim that neither globalnet call occurs when disabled. -/
theorem Broker_disabled_globalnet_cex :
    optsValidDisabled.BrokerSpec.GlobalnetEnabled = false ∧
    Step.createConfigMap false ∈ (Broker cAllOk optsValidDisabled).trace := by decide

/-- C3 (amended): with globalnet disabled the existing-globalnet
validation is never performed, but the configuration-record creation
call is still made — with the enabled flag `false` — whenever the
validators pass and the deploy steps succeed, and its result decides the
run's error. -/
theorem Broker_disabled_globalnet_calls (c : Collaborators) (options : BrokerOptions)
    (hdis : options.BrokerSpec.GlobalnetEnabled = false) :
    Step.validateGlobalnet ∉ (Broker c options).trace ∧
    (isValidComponents options.BrokerSpec.Components.dedup = none →
      (deploy c options).2 = none →
      Step.createConfigMap false ∈ (Broker c options).trace ∧
      (Broker c options).err = statusError
        (c.createConfigMap false options.BrokerSpec.GlobalnetCIDRRange
          options.BrokerSpec.DefaultGlobalnetClusterSize options.BrokerNamespace)
        "error creating globalCIDR configmap on Broker") := by
  have hcfg := checkGlobalnetConfig_of_disabled c options hdis
  constructor
  · rcases h1 : isValidComponents options.BrokerSpec.Components.dedup with _ | e1
    · rcases h3 : deploy c options with ⟨dtrace, _ | e3⟩
      · have hdt : dtrace = [Step.rbac, Step.operatorDeploy, Step.brokerObject] := by
          have := deploy_ok_trace c options (by rw [h3])
          rwa [h3] at this
        simp [Broker, h1, hcfg, h3, hdis, hdt]
      · have hmem := deploy_no_globalnet_steps c options Step.validateGlobalnet
        rw [h3] at hmem
        intro habs
        rw [Broker, h1] at habs
        simp only [hcfg, h3] at habs
        rcases hmem (by simpa using habs) with h | h | h <;> simp at h
    · simp [Broker, h1]
  · intro hcomp hdep
    have hdt := deploy_ok_trace c options hdep
    have hd : deploy c options = ([Step.rbac, Step.operatorDeploy, Step.brokerObject], none) := by
      rw [← hdt, ← hdep]
    simp [Broker, hcomp, hcfg, hd, hdis, statusError]

/-- Witness for C3's amended claim: a successful disabled-globalnet run
performs no existing-globalnet validation yet does create the
configuration record with the enabled flag false. -/
theorem Broker_disabled_globalnet_calls_witness :
    Step.validateGlobalnet ∉ (Broker cAllOk optsValidDisabled).trace ∧
    Step.createConfigMap false ∈ (Broker cAllOk optsValidDisabled).trace := by
  have T := Broker_disabled_globalnet_calls cAllOk optsValidDisabled rfl
  exact ⟨T.1, (T.2 (by decide) rfl).1⟩

/-- C8: with globalnet enabled, the globalnet configuration validator
writes the size returned by the sizing collaborator back into
`DefaultGlobalnetClusterSize` and changes no other field of the options,
whether or not validation fails. -/
theorem checkGlobalnetConfig_frame (c : Collaborators) (options : BrokerOptions)
    (h : options.BrokerSpec.GlobalnetEnabled = true) :
    (checkGlobalnetConfig c options).1.OperatorDebug = options.OperatorDebug ∧
    (checkGlobalnetConfig c options).1.Repository = options.Repository ∧
    (checkGlobalnetConfig c options).1.ImageVersion = options.ImageVersion ∧
    (checkGlobalnetConfig c options).1.BrokerNamespace = options.BrokerNamespace ∧
    (checkGlobalnetConfig c options).1.BrokerSpec.Components =
      options.BrokerSpec.Components ∧
    (checkGlobalnetConfig c options).1.BrokerSpec.GlobalnetEnabled =
      options.BrokerSpec.GlobalnetEnabled ∧
    (checkGlobalnetConfig c options).1.BrokerSpec.GlobalnetCIDRRange =
      options.BrokerSpec.GlobalnetCIDRRange ∧
    (checkGlobalnetConfig c options).1.BrokerSpec.DefaultGlobalnetClusterSize =
      (c.getValidClusterSize options.BrokerSpec.GlobalnetCIDRRange
        options.BrokerSpec.DefaultGlobalnetClusterSize).1 := by
  unfold checkGlobalnetConfig
  rw [h]
  rcases hs : (c.getValidClusterSize options.BrokerSpec.GlobalnetCIDRRange
      options.BrokerSpec.DefaultGlobalnetClusterSize).2 with _ | e <;> simp [hs, h]

/-- Witness for C8: with failing collaborators on enabled options, only
the cluster-size field changes (here to the collaborator's returned
size). -/
theorem checkGlobalnetConfig_frame_witness :
    (checkGlobalnetConfig cAllFail optsValidEnabled).1.BrokerNamespace =
      optsValidEnabled.BrokerNamespace ∧
    (checkGlobalnetConfig cAllFail optsValidEnabled).1.BrokerSpec.GlobalnetCIDRRange =
      optsValidEnabled.BrokerSpec.GlobalnetCIDRRange ∧
    (checkGlobalnetConfig cAllFail optsValidEnabled).1.BrokerSpec.DefaultGlobalnetClusterSize =
      (cAllFail.getValidClusterSize optsValidEnabled.BrokerSpec.GlobalnetCIDRRange
        optsValidEnabled.BrokerSpec.DefaultGlobalnetClusterSize).1 := by
  have T := checkGlobalnetConfig_frame cAllFail optsValidEnabled rfl
  exact ⟨T.2.2.2.1, T.2.2.2.2.2.2.1, T.2.2.2.2.2.2.2⟩

/-- After both validators pass, the pipeline's first step (RBAC) is
attempted, whatever the collaborators do afterwards. -/
lemma Broker_rbac_attempted (c : Collaborators) (options : BrokerOptions)
    (hcomp : isValidComponents options.BrokerSpec.Components.dedup = none)
    (hgn : (checkGlobalnetConfig c options).2 = none) :
    Step.rbac ∈ (Broker c options).trace := by
  rcases hcfg : checkGlobalnetConfig c options with ⟨opts', gerr⟩
  rw [hcfg] at hgn
  simp only at hgn
  subst hgn
  rcases h3 : deploy c opts' with ⟨dtrace, derr⟩
  have hmem : Step.rbac ∈ dtrace := by
    have := deploy_trace_cases c opts'
    rw [h3] at this
    simp only at this
    rcases this with h | h | h <;> simp [h]
  rcases derr with _ | e3
  · rcases hen : opts'.BrokerSpec.GlobalnetEnabled with _ | _
    · simp [Broker, hcomp, hcfg, h3, hen, hmem]
    · rcases h4 : c.validateExistingGlobalNetworks opts'.BrokerNamespace with _ | e4 <;>
        simp [Broker, hcomp, hcfg, h3, hen, h4, hmem]
  · simp [Broker, hcomp, hcfg, h3, hmem]

/-- C10: the `Broker` operation deduplicates the component list into a
set before validating, so any list whose distinct members are non-empty
and all known passes validation — duplicates are never reported as an
error — and (provided the globalnet validator also passes) the pipeline
proceeds to its first step. -/
theorem Broker_dedups_components (c : Collaborators) (options : BrokerOptions)
    (hne : options.BrokerSpec.Components ≠ [])
    (hknown : ∀ x ∈ options.BrokerSpec.Components, x ∈ ValidComponents) :
    isValidComponents options.BrokerSpec.Components.dedup = none ∧
    isValidComponents
      (options.BrokerSpec.Components ++ options.BrokerSpec.Components).dedup = none ∧
    ((checkGlobalnetConfig c options).2 = none → Step.rbac ∈ (Broker c options).trace) := by
  refine ⟨?_, ?_, ?_⟩
  · exact (isValidComponents_eq_none_iff _).mpr
      ⟨by simpa [List.dedup_eq_nil] using hne,
       fun x hx => hknown x (List.mem_dedup.mp hx)⟩
  · refine (isValidComponents_eq_none_iff _).mpr
      ⟨by simpa [List.dedup_eq_nil] using hne, fun x hx => ?_⟩
    rcases List.mem_append.mp (List.mem_dedup.mp hx) with h | h <;> exact hknown x h
  · intro hgn
    exact Broker_rbac_attempted c options
      ((isValidComponents_eq_none_iff _).mpr
        ⟨by simpa [List.dedup_eq_nil] using hne,
         fun x hx => hknown x (List.mem_dedup.mp hx)⟩) hgn

/-- Witness for C10: a duplicated known component passes validation and
the pipeline starts. -/
theorem Broker_dedups_components_witness :
    isValidComponents [component.Connectivity, component.Connectivity].dedup = none ∧
    Step.rbac ∈ (Broker cAllOk optsDupMalformed).trace := by
  have T := Broker_dedups_components cAllOk optsDupMalformed (by decide) (by decide)
  exact ⟨T.1, T.2.2 (by decide)⟩

/-- Dropping the Directory field of the options does not change the
argument validation: only the types and modules are inspected. -/
lemma checkGatherArguments_directory_irrelevant (a m : List String) (o : GatherOptions)
    (d : String) :
    checkGatherArguments a m { o with Directory := d } = checkGatherArguments a m o := rfl

/-- C6: the gather command validates every requested type against the
known type set and every requested module against the known module set
before contacting any cluster: on an unknown value the whole command
fails with an error naming (quoting) the offending value, zero cluster
contexts are contacted, and the per-cluster collection function is never
consulted; validation succeeds exactly when all requested values are
known. -/
theorem gather_preflight_validation (allTypes allModules : List String) (now : UTCTime)
    (contexts : List String) (gatherData : String → GatherOptions → Option String)
    (options : GatherOptions) :
    (∀ e, checkGatherArguments allTypes allModules options = some e →
      (gatherRun allTypes allModules now contexts gatherData options).contacted = [] ∧
      (gatherRun allTypes allModules now contexts gatherData options).err =
        some ("Invalid argument: " ++ e) ∧
      ∀ gatherData', gatherRun allTypes allModules now contexts gatherData options =
        gatherRun allTypes allModules now contexts gatherData' options) ∧
    (checkGatherArguments allTypes allModules options = none ↔
      (∀ t ∈ options.Types, t ∈ allTypes) ∧ (∀ m ∈ options.Modules, m ∈ allModules)) ∧
    (∀ e, checkGatherArguments allTypes allModules options = some e →
      (∃ t ∈ options.Types, t ∉ allTypes ∧ e = quoted t ++ " is not a supported type") ∨
      (∃ m ∈ options.Modules, m ∉ allModules ∧
        e = quoted m ++ " is not a supported module")) := by
  refine ⟨?_, ⟨?_, ?_⟩, ?_⟩
  · intro e he
    by_cases hd : options.Directory = ""
    · simp [gatherRun, hd, checkGatherArguments_directory_irrelevant, he]
    · simp [gatherRun, hd, he]
  · intro h
    unfold checkGatherArguments at h
    rcases hf : options.Types.find? (fun t => !allTypes.contains t) with _ | t
    · rw [hf] at h
      rcases hg : options.Modules.find? (fun m => !allModules.contains m) with _ | m
      · refine ⟨fun t ht => ?_, fun m hm => ?_⟩
        · have := List.find?_eq_none.mp hf t ht
          simpa using this
        · have := List.find?_eq_none.mp hg m hm
          simpa using this
      · rw [hg] at h
        simp at h
    · rw [hf] at h
      simp at h
  · rintro ⟨h1, h2⟩
    unfold checkGatherArguments
    rcases hf : options.Types.find? (fun t => !allTypes.contains t) with _ | t
    · rcases hg : options.Modules.find? (fun m => !allModules.contains m) with _ | m
      · rfl
      · have hb := List.find?_some hg
        simp at hb
        exact absurd (h2 m (List.mem_of_find?_eq_some hg)) hb
    · have hb := List.find?_some hf
      simp at hb
      exact absurd (h1 t (List.mem_of_find?_eq_some hf)) hb
  · intro e he
    unfold checkGatherArguments at he
    rcases hf : options.Types.find? (fun t => !allTypes.contains t) with _ | t
    · rw [hf] at he
      rcases hg : options.Modules.find? (fun m => !allModules.contains m) with _ | m
      · rw [hg] at he
        simp at he
      · rw [hg] at he
        refine Or.inr ⟨m, List.mem_of_find?_eq_some hg, ?_, (Option.some.inj he).symm⟩
        have := List.find?_some hg
        simpa using this
    · rw [hf] at he
      refine Or.inl ⟨t, List.mem_of_find?_eq_some hf, ?_, (Option.some.inj he).symm⟩
      have := List.find?_some hf
      simpa using this

/-- C9: when the output directory option is empty, the gather command
sets it to "submariner-" followed by the invocation's UTC time rendered
as YYYYMMDDHHMMSS; a non-empty directory option is left unchanged. -/
theorem gather_directory_default (allTypes allModules : List String) (now : UTCTime)
    (contexts : List String) (gatherData : String → GatherOptions → Option String)
    (options : GatherOptions) :
    (options.Directory = "" →
      (gatherRun allTypes allModules now contexts gatherData options).options =
        { options with Directory := "submariner-" ++ formatTimestamp now }) ∧
    (options.Directory ≠ "" →
      (gatherRun allTypes allModules now contexts gatherData options).options = options) := by
  constructor
  · intro hd
    rcases hc : checkGatherArguments allTypes allModules
        { options with Directory := "submariner-" ++ formatTimestamp now } with _ | e <;>
      simp [gatherRun, hd, hc]
  · intro hd
    rcases hc : checkGatherArguments allTypes allModules options with _ | e <;>
      simp [gatherRun, hd, hc]

/-- A fixed invocation instant for the gather witnesses. -/
def gatherNow : UTCTime := ⟨2026, 10, 11, 7, 30, 9⟩

/-- Gather options requesting an unknown type, explicit directory. -/
def gatherBadOptions : GatherOptions := ⟨["badvalue"], ["broker"], "out", false⟩

/-- Gather options with all values known and no directory given. -/
def gatherEmptyDirOptions : GatherOptions := ⟨["logs"], ["broker"], "", false⟩

/-- Witness for C6: requesting type "badvalue" fails the command with an
error quoting it, and no cluster context is contacted. -/
theorem gather_preflight_validation_witness :
    (gatherRun ["logs", "resources"] ["broker"] gatherNow ["west", "east"]
      (fun _ _ => none) gatherBadOptions).contacted = [] ∧
    (gatherRun ["logs", "resources"] ["broker"] gatherNow ["west", "east"]
      (fun _ _ => none) gatherBadOptions).err =
      some ("Invalid argument: " ++ (quoted "badvalue" ++ " is not a supported type")) := by
  have T := (gather_preflight_validation ["logs", "resources"] ["broker"] gatherNow
    ["west", "east"] (fun _ _ => none) gatherBadOptions).1
    (quoted "badvalue" ++ " is not a supported type") (by decide)
  exact ⟨T.1, T.2.1⟩

/-- Witness for C9: an empty directory option becomes
`submariner-20261011073009` for the fixed instant, and an explicit
directory is kept. -/
theorem gather_directory_default_witness :
    (gatherRun ["logs"] ["broker"] gatherNow ["west"] (fun _ _ => none)
      gatherEmptyDirOptions).options =
      { gatherEmptyDirOptions with
        Directory := "submariner-" ++ formatTimestamp gatherNow } ∧
    (gatherRun ["logs"] ["broker"] gatherNow ["west"] (fun _ _ => none)
      gatherBadOptions).options = gatherBadOptions ∧
    formatTimestamp gatherNow = "20261011073009" := by
  have T1 := (gather_directory_default ["logs"] ["broker"] gatherNow ["west"]
    (fun _ _ => none) gatherEmptyDirOptions).1 rfl
  have T2 := (gather_directory_default ["logs"] ["broker"] gatherNow ["west"]
    (fun _ _ => none) gatherBadOptions).2 (by decide)
  exact ⟨T1, T2, by decide⟩

end Subctl
